import Mathlib

/-!
Verification development for `src/pretty_scripts/orla_to_ascii.py`: a script
that converts a raster image into ANSI-colored text art.  Machine integers are
modelled as `Nat`/`Int`; Python float expressions are modelled by exact
rational arithmetic (each place where the exact value can differ from the
IEEE-double evaluation is noted at the definition).  Calls into the Pillow
imaging library are modelled from the library's behaviour, noted at each
definition.
-/

/-- One RGBA sample; each channel is an 8-bit unsigned integer (0..255). -/
structure Pixel where
  r : ℕ
  g : ℕ
  b : ℕ
  a : ℕ
deriving DecidableEq

/-- An in-memory RGBA image: width, height, and a pixel lookup `px x y`
(only indices with `x < width`, `y < height` are ever consulted). -/
structure Image where
  width : ℕ
  height : ℕ
  px : ℕ → ℕ → Pixel

/-- Embeds `rgb_to_ansi` (orla_to_ascii.py lines 12-23).  The Python code
computes `int((r / 255.0) * 5)`; for every byte value `0 ≤ r ≤ 255` the
IEEE-double product never crosses an integer boundary, so the truncation
equals the exact `r * 5 / 255` (natural-number division) used here. -/
def rgb_to_ansi (r g b : ℕ) : ℕ :=
  if r = g ∧ g = b ∧ r < 8 then 16
  else if r = g ∧ g = b ∧ r > 248 then 231
  else
    let r6 := r * 5 / 255
    let g6 := g * 5 / 255
    let b6 := b * 5 / 255
    16 + (r6 * 36) + (g6 * 6) + b6

/-- The fixed glyph palette of the script (line 41).  The source file holds
the raw bytes c3 a2, e2 80 93, cb 86 between the quotes — a UTF-8 mojibake of
a full-block character — which Python 3 decodes as the THREE-character string
of U+00E2, U+2013, U+02C6, so `len(ascii_chars)` is 3 and the character at
index 0 is U+00E2. -/
def ascii_chars : String := "â–ˆ"

/-- Embeds the luminance formula (line 63): `0.299*r + 0.587*g + 0.114*b`,
modelled exactly over `ℚ`. -/
def luminance (p : Pixel) : ℚ :=
  (299 * p.r + 587 * p.g + 114 * p.b : ℚ) / 1000

/-- Embeds the darkening step (line 66): `luminance * 0.3`, exact over `ℚ`. -/
def darkened (p : Pixel) : ℚ :=
  luminance p * (3 / 10)

/-- Embeds the glyph-index computation (lines 70-73):
`min(int((darkened / 255.0) * (len(ascii_chars) - 1)), len(ascii_chars) - 1)`.
`int` truncates toward zero; the argument is nonnegative, so truncation is the
floor.  The palette has three characters, so the factor is 2; for byte pixels
`darkened` is at most 76.5 and the scaled value at most 0.6, safely below 1,
so the float truncation is 0 exactly as in this exact model. -/
def char_idx (p : Pixel) : ℕ :=
  min (Int.toNat ⌊darkened p / 255 * ((ascii_chars.length - 1 : ℕ) : ℚ)⌋)
    (ascii_chars.length - 1)

/-- One output cell: the chosen glyph and its ANSI 256-color index. -/
structure Cell where
  glyph : Char
  color : ℕ
deriving DecidableEq

/-- Embeds the per-pixel classification in the main loop (lines 56-76):
transparent pixels (`a < 128`) become a space with color 16; opaque pixels get
the palette glyph at `char_idx` and the `rgb_to_ansi` color. -/
def classify (p : Pixel) : Cell :=
  if p.a < 128 then ⟨' ', 16⟩
  else ⟨ascii_chars.toList.getD (char_idx p) ' ', rgb_to_ansi p.r p.g p.b⟩

/-- Errors that can surface from the modelled pipeline.  `valueError` and
`indexError` are the Python exceptions actually raised; `invalidDimension` is
the error named by the specification's taxonomy — the code never produces
it, which is what some of the theorems below establish. -/
inductive PyErr where
  | valueError
  | indexError
  | invalidDimension
deriving DecidableEq

/-- Embeds line 34: `height = int(width * aspect_ratio * 0.5)` with
`aspect_ratio = img.height / img.width`.  `int` truncates toward zero, which
`Int.tdiv` also does; the model takes the exact rational value.  (The Python
expression is evaluated in IEEE doubles, which at some aspect ratios differs
from the exact truncation by one, e.g. a 5-wide, 23-high image at width 100
yields 229 in doubles but 230 exactly; the model is the exact value.) -/
def targetHeight (img : Image) (width : ℤ) : ℤ :=
  Int.tdiv (width * (img.height : ℤ)) (2 * (img.width : ℤ))

/-- Embeds the `img.resize((width, height), Image.Resampling.NEAREST)` call
(lines 36-38).  Modelled from Pillow: a target dimension below 1 raises
`ValueError` ("height and width must be > 0", `_imaging.c:_resize`);
otherwise output index `i` along an axis samples the source index
`floor((i + 0.5) * src / dst)` (pixel-center affine scaling,
`ImagingScaleAffine`), here `(2*i + 1) * src / (2 * dst)` exactly.  The
subsequent `convert("RGBA")` (lines 44-45) is the identity in this model,
whose pixels are already RGBA. -/
def resizeNearest (img : Image) (w h : ℤ) : Except PyErr Image :=
  if w < 1 ∨ h < 1 then Except.error PyErr.valueError
  else
    Except.ok
      { width := w.toNat
        height := h.toNat
        px := fun x y =>
          img.px ((2 * x + 1) * img.width / (2 * w.toNat))
            ((2 * y + 1) * img.height / (2 * h.toNat)) }

/-- Embeds the per-cell format string (line 79):
`f"\033[38;5;{ansi_code}m{char}\033[0m"`. -/
def cell_str (c : Cell) : String :=
  "\x1b[38;5;" ++ toString c.color ++ "m" ++ String.singleton c.glyph ++ "\x1b[0m"

/-- Embeds the rendering loops (lines 50-82): one string per row, cells
concatenated left to right, rows joined by newline. -/
def render (img : Image) : String :=
  String.intercalate "\n"
    ((List.range img.height).map fun y =>
      String.join ((List.range img.width).map fun x =>
        cell_str (classify (img.px x y))))

/-- Embeds `orla_to_ascii` (lines 26-82) after image decoding: compute the
target height, resize (which can raise), classify and render. -/
def orla_to_ascii (img : Image) (width : ℤ) : Except PyErr String :=
  let height := targetHeight img width
  match resizeNearest img width height with
  | Except.error e => Except.error e
  | Except.ok resized => Except.ok (render resized)

/-- Outcome of one run of the script's `__main__` block: a usage message on
stderr with exit code 1, an uncaught Python exception (traceback on stderr,
exit code 1), or a successful print of the art (exit code 0). -/
inductive MainOutcome where
  | usageExit (msg : String)
  | crash (e : PyErr)
  | success (out : String)
deriving DecidableEq

/-- The usage string printed by the entry guard (lines 87-90). -/
def usageMsg : String := "Usage: python3 orla_to_ascii.py image_path [width]"

/-- The default output width (line 94). -/
def defaultWidth : ℤ := 40

/-- Embeds the `__main__` block (lines 85-97).  `argv` includes the program
name at index 0, as Python's `sys.argv` always does.  `load` models
`Image.open` (decode failure raises) and `parseWidth` models `int(...)` on
the optional width argument; both are uncaught if they raise.  The guard is
the code's literal `len(sys.argv) < 1`; when index 1 is absent the subscript
`sys.argv[1]` raises `IndexError`. -/
def main_block (argv : List String) (load : String → Except PyErr Image)
    (parseWidth : String → Except PyErr ℤ) : MainOutcome :=
  if argv.length < 1 then MainOutcome.usageExit usageMsg
  else
    match argv.get? 1 with
    | none => MainOutcome.crash PyErr.indexError
    | some path =>
      let widthR : Except PyErr ℤ :=
        match argv.get? 2 with
        | some s => parseWidth s
        | none => Except.ok defaultWidth
      match widthR with
      | Except.error e => MainOutcome.crash e
      | Except.ok width =>
        match load path with
        | Except.error e => MainOutcome.crash e
        | Except.ok img =>
          match orla_to_ascii img width with
          | Except.error e => MainOutcome.crash e
          | Except.ok s => MainOutcome.success s

/-- The color-cube index exactly as the claims write it: real-number floors
`r6 = floor(r/255*5)` and so on, with the two greyscale special cases. -/
def rgbToAnsiSpec (r g b : ℕ) : ℕ :=
  if r = g ∧ g = b ∧ r < 8 then 16
  else if r = g ∧ g = b ∧ r > 248 then 231
  else
    16 + ⌊(r : ℚ) / 255 * 5⌋₊ * 36 + ⌊(g : ℚ) / 255 * 5⌋₊ * 6 + ⌊(b : ℚ) / 255 * 5⌋₊

/-- The claims' per-channel cube coordinate `floor(c/255*5)`. -/
def specR6 (n : ℕ) : ℕ := ⌊(n : ℚ) / 255 * 5⌋₊

/-- The glyph index as the claims write it: `clamp(floor((darkened/255) *
(paletteSize-1)), 0, paletteSize-1)` over the script's palette. -/
def glyphIdxSpec (p : Pixel) : ℕ :=
  Int.toNat
    (min (max ⌊darkened p / 255 * ((ascii_chars.length : ℚ) - 1)⌋ 0)
      ((ascii_chars.length : ℤ) - 1))

/-- The synthetic 2x2 fully opaque test image of the round-trip scaffold:
top row black, white; bottom row green-ish, red.  Out-of-range lookups
default to the bottom-right pixel (never consulted). -/
def img2x2 : Image where
  width := 2
  height := 2
  px := fun x y =>
    match x, y with
    | 0, 0 => ⟨0, 0, 0, 255⟩
    | 1, 0 => ⟨255, 255, 255, 255⟩
    | 0, 1 => ⟨0, 154, 0, 255⟩
    | _, _ => ⟨255, 0, 0, 255⟩

/-- A fully transparent 1x1 image (alpha = 0, RGB irrelevant). -/
def img1x1T : Image where
  width := 1
  height := 1
  px := fun _ _ => ⟨5, 6, 7, 0⟩

/-- A 100x1 opaque image: an extreme aspect ratio whose target height
computes to 0 at width 40. -/
def img100x1 : Image where
  width := 100
  height := 1
  px := fun _ _ => ⟨10, 20, 30, 255⟩

/-- A plain 1x1 opaque image used for concrete entry-point inputs. -/
def imgSimple : Image where
  width := 1
  height := 1
  px := fun _ _ => ⟨0, 0, 0, 255⟩

/-- Helper: the claims' rational floor agrees with the natural division the
code performs, for every natural channel value. -/
theorem specR6_eq_div (n : ℕ) : specR6 n = n * 5 / 255 := by
  have h : (n : ℚ) / 255 * 5 = ((n * 5 : ℕ) : ℚ) / ((255 : ℕ) : ℚ) := by
    push_cast
    ring
  rw [specR6, h, Nat.floor_div_nat, Nat.floor_natCast]

/-- Helper: `rgb_to_ansi` coincides with the spec-side formula everywhere. -/
theorem rgb_to_ansi_eq_spec (r g b : ℕ) :
    rgb_to_ansi r g b = rgbToAnsiSpec r g b := by
  have hr := specR6_eq_div r
  have hg := specR6_eq_div g
  have hb := specR6_eq_div b
  rw [specR6] at hr hg hb
  unfold rgb_to_ansi rgbToAnsiSpec
  rw [hr, hg, hb]

/-- Helper: each cube coordinate is at most 5 for byte inputs. -/
theorem cube_coord_le (n : ℕ) (h : n ≤ 255) : n * 5 / 255 ≤ 5 := by
  have h1 : n * 5 ≤ 1275 := by omega
  calc n * 5 / 255 ≤ 1275 / 255 := Nat.div_le_div_right h1
    _ = 5 := by norm_num

/-- Helper: `rgb_to_ansi` lands in the color cube for byte inputs. -/
theorem rgb_to_ansi_range (r g b : ℕ) (hr : r ≤ 255) (hg : g ≤ 255)
    (hb : b ≤ 255) : 16 ≤ rgb_to_ansi r g b ∧ rgb_to_ansi r g b ≤ 231 := by
  have h1 := cube_coord_le r hr
  have h2 := cube_coord_le g hg
  have h3 := cube_coord_le b hb
  unfold rgb_to_ansi
  split_ifs with c1 c2
  · omega
  · omega
  · simp only []
    omega

/-- Helper: truncating integer division of cast naturals is natural division. -/
theorem tdiv_natCast (a b : ℕ) :
    Int.tdiv (a : ℤ) (b : ℤ) = ((a / b : ℕ) : ℤ) := rfl

/-- Helper: for a positive requested width, the modelled target height is the
cast of a natural division. -/
theorem targetHeight_eq_natDiv (img : Image) (W : ℕ) :
    targetHeight img (W : ℤ) = ((W * img.height / (2 * img.width) : ℕ) : ℤ) := by
  have e1 : ((W : ℤ)) * (img.height : ℤ) = ((W * img.height : ℕ) : ℤ) := by
    push_cast
    ring
  have e2 : (2 : ℤ) * (img.width : ℤ) = ((2 * img.width : ℕ) : ℤ) := by
    push_cast
    ring
  rw [targetHeight, e1, e2, tdiv_natCast]

/-- Helper: in the generic branch, `rgb_to_ansi` is the cube formula stated
with the claims' rational floors. -/
theorem rgb_to_ansi_generic (r g b : ℕ) (h1 : ¬(r = g ∧ g = b ∧ r < 8))
    (h2 : ¬(r = g ∧ g = b ∧ r > 248)) :
    rgb_to_ansi r g b = 16 + specR6 r * 36 + specR6 g * 6 + specR6 b := by
  rw [specR6_eq_div r, specR6_eq_div g, specR6_eq_div b]
  unfold rgb_to_ansi
  rw [if_neg h1, if_neg h2]

/-- Helper: the near-black special case of `rgb_to_ansi`. -/
theorem rgb_to_ansi_black (r g b : ℕ) (h : r = g ∧ g = b ∧ r < 8) :
    rgb_to_ansi r g b = 16 := by
  unfold rgb_to_ansi
  rw [if_pos h]

/-- Helper: the near-white special case of `rgb_to_ansi`. -/
theorem rgb_to_ansi_white (r g b : ℕ) (h : r = g ∧ g = b ∧ r > 248) :
    rgb_to_ansi r g b = 231 := by
  have h1 : ¬(r = g ∧ g = b ∧ r < 8) := by omega
  unfold rgb_to_ansi
  rw [if_neg h1, if_pos h]

/-- Helper: an opaque pixel's color is `rgb_to_ansi` of its channels. -/
theorem classify_opaque_color (p : Pixel) (ha : 128 ≤ p.a) :
    (classify p).color = rgb_to_ansi p.r p.g p.b := by
  have hna : ¬p.a < 128 := by omega
  rw [classify, if_neg hna]

/-- Helper: for byte pixels the darkened luminance scaled by the palette
factor 2 stays in [0, 1), so its floor is 0 (maximum darkened value is
255 * 0.3 = 76.5, scaled to 0.6). -/
theorem darkened_floor_zero (p : Pixel) (hr : p.r ≤ 255) (hg : p.g ≤ 255)
    (hb : p.b ≤ 255) : ⌊darkened p / 255 * (2 : ℚ)⌋ = 0 := by
  have hrq : (p.r : ℚ) ≤ 255 := by exact_mod_cast hr
  have hgq : (p.g : ℚ) ≤ 255 := by exact_mod_cast hg
  have hbq : (p.b : ℚ) ≤ 255 := by exact_mod_cast hb
  have hr0 : (0 : ℚ) ≤ (p.r : ℚ) := Nat.cast_nonneg _
  have hg0 : (0 : ℚ) ≤ (p.g : ℚ) := Nat.cast_nonneg _
  have hb0 : (0 : ℚ) ≤ (p.b : ℚ) := Nat.cast_nonneg _
  have hd0 : (0 : ℚ) ≤ darkened p := by
    unfold darkened luminance
    positivity
  rw [Int.floor_eq_zero_iff, Set.mem_Ico]
  refine ⟨mul_nonneg (div_nonneg hd0 (by norm_num)) (by norm_num), ?_⟩
  rw [div_mul_eq_mul_div, div_lt_one (by norm_num)]
  unfold darkened luminance
  linarith

/-- Helper: for byte pixels the glyph index is always 0 (the scaled darkened
value never reaches 1). -/
theorem char_idx_zero (p : Pixel) (hr : p.r ≤ 255) (hg : p.g ≤ 255)
    (hb : p.b ≤ 255) : char_idx p = 0 := by
  have e1 : ascii_chars.length - 1 = 2 := rfl
  rw [char_idx, e1]
  have e2 : ((2 : ℕ) : ℚ) = (2 : ℚ) := by norm_num
  rw [e2, darkened_floor_zero p hr hg hb]
  rfl

/-- Helper: the claims' clamp formula is also always 0 for byte pixels. -/
theorem glyphIdxSpec_zero (p : Pixel) (hr : p.r ≤ 255) (hg : p.g ≤ 255)
    (hb : p.b ≤ 255) : glyphIdxSpec p = 0 := by
  have e1 : ((ascii_chars.length : ℚ)) - 1 = 2 := by
    rw [show ascii_chars.length = 3 from rfl]
    norm_num
  have e2 : ((ascii_chars.length : ℤ)) - 1 = 2 := by
    rw [show ascii_chars.length = 3 from rfl]
    norm_num
  rw [glyphIdxSpec, e1, e2, darkened_floor_zero p hr hg hb]
  rfl

/-- Helper: every opaque byte pixel receives the first palette character,
U+00E2. -/
theorem classify_opaque_glyph (p : Pixel) (ha : 128 ≤ p.a) (hr : p.r ≤ 255)
    (hg : p.g ≤ 255) (hb : p.b ≤ 255) : (classify p).glyph = 'â' := by
  have hna : ¬p.a < 128 := by omega
  rw [classify, if_neg hna]
  show ascii_chars.toList.getD (char_idx p) ' ' = 'â'
  rw [char_idx_zero p hr hg hb]
  rfl

/-- C1: for every opaque pixel (alpha ≥ 128) with byte channels, the computed
color index follows the 6x6x6 quantization rule exactly as the claim states
it: index 16 when r = g = b < 8, index 231 when r = g = b > 248, and
otherwise 16 + r6*36 + g6*6 + b6 with r6 = floor(r/255*5) and so on. -/
theorem c1_color_cube (p : Pixel) (ha : 128 ≤ p.a) (hr : p.r ≤ 255)
    (hg : p.g ≤ 255) (hb : p.b ≤ 255) :
    (classify p).color = rgbToAnsiSpec p.r p.g p.b := by
  rw [classify_opaque_color p ha]
  exact rgb_to_ansi_eq_spec p.r p.g p.b

/-- Witness for C1 at the opaque pixel (10, 200, 30, 255). -/
theorem c1_color_cube_witness :
    128 ≤ (Pixel.mk 10 200 30 255).a ∧
    (classify ⟨10, 200, 30, 255⟩).color = rgbToAnsiSpec 10 200 30 :=
  ⟨by decide,
    c1_color_cube ⟨10, 200, 30, 255⟩ (by decide) (by decide) (by decide)
      (by decide)⟩

/-- C2: every pixel with alpha < 128 classifies to a literal space glyph with
color index 16, regardless of its RGB channels. -/
theorem c2_transparent (p : Pixel) (ha : p.a < 128) :
    classify p = ⟨' ', 16⟩ := by
  rw [classify, if_pos ha]

/-- Witness for C2 at the transparent pixel (123, 45, 67, 0). -/
theorem c2_transparent_witness :
    (Pixel.mk 123 45 67 0).a < 128 ∧ classify ⟨123, 45, 67, 0⟩ = ⟨' ', 16⟩ :=
  ⟨by decide, c2_transparent ⟨123, 45, 67, 0⟩ (by decide)⟩

/-- C3 counterexample: a 100x1 image at width 40 has target height 0, and the
pipeline then fails with the resize ValueError instead of producing empty
output. -/
theorem c3_counterexample :
    targetHeight img100x1 40 = 0 ∧
    orla_to_ascii img100x1 40 = Except.error PyErr.valueError ∧
    orla_to_ascii img100x1 40 ≠ Except.ok "" := by
  refine ⟨rfl, rfl, fun h => ?_⟩
  rw [show orla_to_ascii img100x1 40 = Except.error PyErr.valueError from rfl]
    at h
  exact Except.noConfusion h

/-- C3 amended: for valid images and positive width, the target height is the
floor of width * (height/width) * 0.5 (exact arithmetic) and is never
negative; but when it evaluates to 0 the resize call rejects the zero
dimension, so the pipeline fails with ValueError rather than producing empty
output. -/
theorem c3_height (img : Image) (width : ℤ) (hw : 0 < img.width)
    (hh : 0 < img.height) (hpos : 0 < width) :
    0 ≤ targetHeight img width ∧
    targetHeight img width =
      ((⌊(width : ℚ) * ((img.height : ℚ) / (img.width : ℚ)) * (1 / 2)⌋₊ : ℕ) : ℤ) ∧
    (targetHeight img width = 0 →
      orla_to_ascii img width = Except.error PyErr.valueError) := by
  obtain ⟨W, rfl⟩ : ∃ W : ℕ, width = (W : ℤ) :=
    ⟨width.toNat, (Int.toNat_of_nonneg hpos.le).symm⟩
  have key := targetHeight_eq_natDiv img W
  refine ⟨by rw [key]; exact Int.natCast_nonneg _, ?_, ?_⟩
  · rw [key]
    congr 1
    have hw0 : ((img.width : ℚ)) ≠ 0 := by
      exact_mod_cast hw.ne'
    have hq : ((W : ℤ) : ℚ) * ((img.height : ℚ) / (img.width : ℚ)) * (1 / 2) =
        ((W * img.height : ℕ) : ℚ) / ((2 * img.width : ℕ) : ℚ) := by
      push_cast
      field_simp
      ring_nf
      exact Or.inl trivial
    rw [hq, Nat.floor_div_nat, Nat.floor_natCast]
  · intro h0
    have hcond : (W : ℤ) < 1 ∨ targetHeight img (W : ℤ) < 1 :=
      Or.inr (by rw [h0]; norm_num)
    simp only [orla_to_ascii, resizeNearest, if_pos hcond]

/-- Witness for C3 at the 100x1 image and width 40. -/
theorem c3_height_witness :
    0 < img100x1.width ∧ 0 < img100x1.height ∧ 0 < (40 : ℤ) ∧
    (0 ≤ targetHeight img100x1 40 ∧
      targetHeight img100x1 40 =
        ((⌊(40 : ℚ) * ((img100x1.height : ℚ) / (img100x1.width : ℚ)) *
            (1 / 2)⌋₊ : ℕ) : ℤ) ∧
      (targetHeight img100x1 40 = 0 →
        orla_to_ascii img100x1 40 = Except.error PyErr.valueError)) :=
  ⟨by decide, by decide, by decide,
    c3_height img100x1 40 (by decide) (by decide) (by decide)⟩

/-- C4 counterexample: at width 0 the conversion fails with the resize
ValueError, not with an InvalidDimension error at the entry point; width 1
also fails for a square image (its target height computes to 0); and with a
width argument parsing to 0 the entry point crashes with the uncaught
ValueError (it is not surfaced as anything else). -/
theorem c4_counterexample :
    orla_to_ascii imgSimple 0 = Except.error PyErr.valueError ∧
    PyErr.valueError ≠ PyErr.invalidDimension ∧
    orla_to_ascii imgSimple 1 = Except.error PyErr.valueError ∧
    main_block ["orla_to_ascii.py", "logo.png", "0"]
      (fun _ => Except.ok imgSimple) (fun _ => Except.ok 0) =
      MainOutcome.crash PyErr.valueError :=
  ⟨rfl, by decide, rfl, rfl⟩

/-- C4 amended: there is no width validation and no InvalidDimension error;
every width ≤ 0 reaches the resize call, which raises ValueError, and the
entry point leaves the exception uncaught (the program crashes). -/
theorem c4_nonpositive_width (img : Image) (width : ℤ) (h : width ≤ 0) :
    orla_to_ascii img width = Except.error PyErr.valueError := by
  have hcond : width < 1 ∨ targetHeight img width < 1 := Or.inl (by omega)
  simp only [orla_to_ascii, resizeNearest, if_pos hcond]

/-- Witness for C4 at width 0 on a 1x1 opaque image. -/
theorem c4_nonpositive_width_witness :
    (0 : ℤ) ≤ 0 ∧ orla_to_ascii imgSimple 0 = Except.error PyErr.valueError :=
  ⟨by decide, c4_nonpositive_width imgSimple 0 (by decide)⟩

/-- C5 counterexample: the pixel (250, 250, 250, 255) is neither pure black
nor pure white, yet its color index is 231 (the r > 248 special case), while
the claimed cube formula yields 188. -/
theorem c5_counterexample :
    128 ≤ (Pixel.mk 250 250 250 255).a ∧ (250 : ℕ) ≠ 0 ∧ (250 : ℕ) ≠ 255 ∧
    (classify ⟨250, 250, 250, 255⟩).color = 231 ∧
    16 + specR6 250 * 36 + specR6 250 * 6 + specR6 250 = 188 := by
  refine ⟨by decide, by decide, by decide, by decide, ?_⟩
  simp only [specR6_eq_div]

/-- C5 amended: for opaque byte pixels the special cases are r = g = b with
r < 8 (index 16, including pure black) and r = g = b with r > 248 (index 231,
including pure white); outside both special cases the color index equals the
cube formula and always lies in [16, 231]. -/
theorem c5_cube_range (p : Pixel) (ha : 128 ≤ p.a) (hr : p.r ≤ 255)
    (hg : p.g ≤ 255) (hb : p.b ≤ 255) :
    ((¬(p.r = p.g ∧ p.g = p.b ∧ p.r < 8) ∧
        ¬(p.r = p.g ∧ p.g = p.b ∧ p.r > 248)) →
      16 ≤ (classify p).color ∧ (classify p).color ≤ 231 ∧
      (classify p).color = 16 + specR6 p.r * 36 + specR6 p.g * 6 + specR6 p.b) ∧
    ((p.r = p.g ∧ p.g = p.b ∧ p.r < 8) → (classify p).color = 16) ∧
    ((p.r = p.g ∧ p.g = p.b ∧ p.r > 248) → (classify p).color = 231) := by
  have hc := classify_opaque_color p ha
  have hrange := rgb_to_ansi_range p.r p.g p.b hr hg hb
  refine ⟨fun ⟨h1, h2⟩ => ?_, fun h => ?_, fun h => ?_⟩
  · rw [hc]
    exact ⟨hrange.1, hrange.2, rgb_to_ansi_generic p.r p.g p.b h1 h2⟩
  · rw [hc]
    exact rgb_to_ansi_black p.r p.g p.b h
  · rw [hc]
    exact rgb_to_ansi_white p.r p.g p.b h

/-- Witness for C5 at the opaque pixel (100, 200, 50, 255). -/
theorem c5_cube_range_witness :
    128 ≤ (Pixel.mk 100 200 50 255).a ∧
    (((¬((100 : ℕ) = 200 ∧ (200 : ℕ) = 50 ∧ (100 : ℕ) < 8) ∧
        ¬((100 : ℕ) = 200 ∧ (200 : ℕ) = 50 ∧ (100 : ℕ) > 248)) →
      16 ≤ (classify ⟨100, 200, 50, 255⟩).color ∧
      (classify ⟨100, 200, 50, 255⟩).color ≤ 231 ∧
      (classify ⟨100, 200, 50, 255⟩).color =
        16 + specR6 100 * 36 + specR6 200 * 6 + specR6 50) ∧
    (((100 : ℕ) = 200 ∧ (200 : ℕ) = 50 ∧ (100 : ℕ) < 8) →
      (classify ⟨100, 200, 50, 255⟩).color = 16) ∧
    (((100 : ℕ) = 200 ∧ (200 : ℕ) = 50 ∧ (100 : ℕ) > 248) →
      (classify ⟨100, 200, 50, 255⟩).color = 231)) :=
  ⟨by decide,
    c5_cube_range ⟨100, 200, 50, 255⟩ (by decide) (by decide) (by decide)
      (by decide)⟩

/-- C6 counterexample: the palette is not the claimed single-glyph palette:
it has three characters (the mojibake U+00E2, U+2013, U+02C6), and a concrete
opaque pixel receives the first of them, U+00E2, so there is no "single
palette character". -/
theorem c6_counterexample :
    ascii_chars.length = 3 ∧ ascii_chars.length ≠ 1 ∧
    ascii_chars.toList = ['â', '–', 'ˆ'] ∧
    (classify ⟨255, 255, 255, 255⟩).glyph = 'â' :=
  ⟨rfl, by decide, rfl,
    classify_opaque_glyph ⟨255, 255, 255, 255⟩ (by decide) (by decide)
      (by decide) (by decide)⟩

/-- C6 amended: for every opaque byte pixel the glyph index of the code
equals the claimed clamp formula over the palette; the palette is the
three-character mojibake string (paletteSize = 3, not 1), yet the index is
still always 0 — because the darkened luminance is at most 76.5, the scaled
value stays below 1 — so the glyph is always the FIRST palette character,
U+00E2. -/
theorem c6_glyph (p : Pixel) (ha : 128 ≤ p.a) (hr : p.r ≤ 255)
    (hg : p.g ≤ 255) (hb : p.b ≤ 255) :
    char_idx p = 0 ∧ char_idx p = glyphIdxSpec p ∧
    (classify p).glyph = 'â' :=
  ⟨char_idx_zero p hr hg hb,
    by rw [char_idx_zero p hr hg hb, glyphIdxSpec_zero p hr hg hb],
    classify_opaque_glyph p ha hr hg hb⟩

/-- Witness for C6 at the opaque pixel (1, 2, 3, 200). -/
theorem c6_glyph_witness :
    128 ≤ (Pixel.mk 1 2 3 200).a ∧
    (char_idx ⟨1, 2, 3, 200⟩ = 0 ∧
      char_idx ⟨1, 2, 3, 200⟩ = glyphIdxSpec ⟨1, 2, 3, 200⟩ ∧
      (classify ⟨1, 2, 3, 200⟩).glyph = 'â') :=
  ⟨by decide,
    c6_glyph ⟨1, 2, 3, 200⟩ (by decide) (by decide) (by decide) (by decide)⟩

/-- C7 counterexample: the 2x2 scaffold image at width 2 yields one row, but
its two cells are the classifications of the bottom row's pixels, not the top
row's (the rendered strings differ). -/
theorem c7_counterexample :
    orla_to_ascii img2x2 2 =
      Except.ok
        (cell_str (classify (img2x2.px 0 1)) ++
          cell_str (classify (img2x2.px 1 1))) ∧
    cell_str (classify (img2x2.px 0 1)) ++ cell_str (classify (img2x2.px 1 1)) ≠
      cell_str (classify (img2x2.px 0 0)) ++
        cell_str (classify (img2x2.px 1 0)) :=
  ⟨rfl, by decide⟩

/-- C7 amended: the scaffold image yields height 1 and a single row whose two
glyph/color pairs are the classifications of the bottom row's pixels, because
nearest-neighbor sampling maps output index i to source index
floor((i + 0.5) * src/dst), which for 2 rows into 1 selects row 1; the pairs
are (U+00E2, 34) and (U+00E2, 196) — the glyph being the first character of
the mojibake palette, not a full block. -/
theorem c7_roundtrip :
    targetHeight img2x2 2 = 1 ∧
    orla_to_ascii img2x2 2 =
      Except.ok
        (cell_str (classify (img2x2.px 0 1)) ++
          cell_str (classify (img2x2.px 1 1))) ∧
    (classify (img2x2.px 0 1)).glyph = 'â' ∧
    (classify (img2x2.px 0 1)).color = 34 ∧
    (classify (img2x2.px 1 1)).glyph = 'â' ∧
    (classify (img2x2.px 1 1)).color = 196 :=
  ⟨rfl, rfl,
    classify_opaque_glyph _ (by decide) (by decide) (by decide) (by decide),
    by decide,
    classify_opaque_glyph _ (by decide) (by decide) (by decide) (by decide),
    by decide⟩

/-- C8 counterexample: for the fully transparent 1x1 image, width 1 makes the
target height 0 and the pipeline fails in resize; width 2 succeeds but renders
two wrapped spaces on the single line, not one. -/
theorem c8_counterexample :
    orla_to_ascii img1x1T 1 = Except.error PyErr.valueError ∧
    orla_to_ascii img1x1T 2 =
      Except.ok (cell_str ⟨' ', 16⟩ ++ cell_str ⟨' ', 16⟩) ∧
    cell_str ⟨' ', 16⟩ ++ cell_str ⟨' ', 16⟩ ≠ cell_str ⟨' ', 16⟩ :=
  ⟨rfl, rfl, by decide⟩

/-- C8 amended: each transparent cell renders as a space wrapped in the black
escape pair ESC[38;5;16m ... ESC[0m; for the 1x1 transparent image the
smallest width that does not fail in resize is 2, which yields a single line
of two such wrapped spaces (width 1 gives target height 0 and ValueError). -/
theorem c8_transparent_render :
    orla_to_ascii img1x1T 2 =
      Except.ok "\x1b[38;5;16m \x1b[0m\x1b[38;5;16m \x1b[0m" ∧
    orla_to_ascii img1x1T 1 = Except.error PyErr.valueError :=
  ⟨rfl, rfl⟩

/-- C9: invoked with no image path (argv holds only the program name), the
entry block crashes with an uncaught IndexError instead of printing the usage
diagnostic, because the guard compares len(sys.argv) < 1, which is never
true. -/
theorem c9_missing_path (load : String → Except PyErr Image)
    (parseWidth : String → Except PyErr ℤ) :
    main_block ["orla_to_ascii.py"] load parseWidth =
      MainOutcome.crash PyErr.indexError ∧
    MainOutcome.crash PyErr.indexError ≠ MainOutcome.usageExit usageMsg :=
  ⟨rfl, by decide⟩

/-- C10: for every pixel with byte channels, both classification branches
produce a color index in [16, 231]; in particular rgb_to_ansi itself stays in
[16, 231], so no escape sequence ever references the 16 base colors or the
grayscale ramp. -/
theorem c10_color_invariant (p : Pixel) (hr : p.r ≤ 255) (hg : p.g ≤ 255)
    (hb : p.b ≤ 255) :
    (16 ≤ (classify p).color ∧ (classify p).color ≤ 231) ∧
    (16 ≤ rgb_to_ansi p.r p.g p.b ∧ rgb_to_ansi p.r p.g p.b ≤ 231) := by
  have h := rgb_to_ansi_range p.r p.g p.b hr hg hb
  refine ⟨?_, h⟩
  by_cases hA : p.a < 128
  · rw [classify, if_pos hA]
    exact ⟨by norm_num, by norm_num⟩
  · rw [classify, if_neg hA]
    exact h

/-- Witness for C10 at the pixel (255, 255, 254, 10). -/
theorem c10_color_invariant_witness :
    (Pixel.mk 255 255 254 10).r ≤ 255 ∧
    ((16 ≤ (classify ⟨255, 255, 254, 10⟩).color ∧
        (classify ⟨255, 255, 254, 10⟩).color ≤ 231) ∧
      (16 ≤ rgb_to_ansi 255 255 254 ∧ rgb_to_ansi 255 255 254 ≤ 231)) :=
  ⟨by decide,
    c10_color_invariant ⟨255, 255, 254, 10⟩ (by decide) (by decide) (by decide)⟩
